import Mathlib

/-!
Verification of the disclosure-menu widget, TrackCard, and Textarea
components in `src/src/components/base/TrackCard/TrackCard.tsx` and the
unnamed Textarea source file, via a shallow embedding of the handlers and
render functions.
-/

/-- `enum MenuState { Opened, Closed }` from the source. -/
inductive MenuState
  | Opened
  | Closed
deriving DecidableEq, Repr

/-- `enum Focus { First, Previous, Next, Last }` from the source. -/
inductive Focus
  | First
  | Previous
  | Next
  | Last
deriving DecidableEq, Repr

/-- The argument of `focus(index: Focus | number)`: either a `Focus`
symbol or a JS number (modelled as `Int`, since `Previous` can produce
a negative index). -/
inductive FocusArg
  | target (f : Focus)
  | index (i : Int)
deriving DecidableEq, Repr

/-- The key names from the `Keys` enum that the handlers switch on. -/
inductive Key
  | Space
  | Enter
  | Escape
  | ArrowUp
  | ArrowDown
  | Other (s : String)
deriving DecidableEq, Repr

/-- The slice of the DOM that `focus` reads: the children of the `ul`
bound to `menuItemsRef` (`none` when the panel is unmounted so the ref is
empty), `document.activeElement` (from the `useActiveElement` hook),
and the parent/children relations used by the Previous/Next branches.
Elements are identified by `Nat` ids. -/
structure Dom where
  menuItemsChildren : Option (List Nat)
  active : Option Nat
  parentOf : Nat → Option Nat
  childrenOf : Nat → List Nat

/-- JS `Array.prototype.indexOf` over the spread child list: the index of
`a` in `cs`, or `-1` when absent. -/
def jsIndexOfAux (cs : List Nat) (a : Nat) (k : Int) : Int :=
  match cs with
  | [] => -1
  | c :: rest => if c = a then k else jsIndexOfAux rest a (k + 1)

def jsIndexOf (cs : List Nat) (a : Nat) : Int :=
  jsIndexOfAux cs a 0

/-- JS indexing `cs[i]` on an element collection: `undefined` (`none`) for
a negative or past-the-end index, never an error. -/
def jsChildAt (cs : List Nat) (i : Int) : Option Nat :=
  if 0 ≤ i then cs.get? i.toNat else none

/-- `menuItemsRef.value?.children[i]` followed by `?.focus()`: the element
that receives focus, `none` when the ref is empty or the index misses. -/
def focusIdx (d : Dom) (i : Int) : Option Nat :=
  match d.menuItemsChildren with
  | none => none
  | some cs => jsChildAt cs i

/-- The message of the TypeError JS raises when
`[...activeElement.value?.parentElement?.children]` spreads `undefined`. -/
def spreadUndefinedError : String :=
  "TypeError: undefined is not iterable"

/-- The Container's `focus` function. `First` recurses to `focus(0)` in the
source, which lands in the default (numeric) branch, i.e. `focusIdx`.
`Previous`/`Next` spread the active element's parent's children; when
`activeElement.value` is `undefined` or its `parentElement` is `null`, the
optional chain yields `undefined` and the spread throws a TypeError.
Result: the element that received focus (`none` = silent no-op), or the
raised error. -/
def focusFn (d : Dom) : FocusArg → Except String (Option Nat)
  | FocusArg.target Focus.First => Except.ok (focusIdx d 0)
  | FocusArg.target Focus.Last =>
      Except.ok (match d.menuItemsChildren with
        | none => none
        | some cs => jsChildAt cs ((cs.length : Int) - 1))
  | FocusArg.target Focus.Previous =>
      match d.active with
      | none => Except.error spreadUndefinedError
      | some a =>
          match d.parentOf a with
          | none => Except.error spreadUndefinedError
          | some p => Except.ok (focusIdx d (jsIndexOf (d.childrenOf p) a - 1))
  | FocusArg.target Focus.Next =>
      match d.active with
      | none => Except.error spreadUndefinedError
      | some a =>
          match d.parentOf a with
          | none => Except.error spreadUndefinedError
          | some p => Except.ok (focusIdx d (jsIndexOf (d.childrenOf p) a + 1))
  | FocusArg.index i => Except.ok (focusIdx d i)

/-- `closeMenu`: sets the state ref to `Closed`. -/
def closeMenu (_ : MenuState) : MenuState :=
  MenuState.Closed

/-- `openMenu`: sets the state ref to `Opened`. -/
def openMenu (_ : MenuState) : MenuState :=
  MenuState.Opened

/-- MenuButton's `handleClick`:
`menuState.value === Opened ? closeMenu() : openMenu()`. -/
def handleClick (s : MenuState) : MenuState :=
  if s = MenuState.Opened then closeMenu s else openMenu s

/-- The MenuState after `n` pointer activations of the Trigger, starting
from the initial `ref(MenuState.Closed)`. -/
def stateAfterClicks : Nat → MenuState
  | 0 => MenuState.Closed
  | Nat.succ n => handleClick (stateAfterClicks n)

/-- MenuItems' render function: returns the wrapped `ul` with the slot
content when the state is `Opened`, and otherwise falls off the end of the
function (returns `undefined`, i.e. renders nothing). -/
def menuItemsRender (s : MenuState) (slotContent : List Nat) : Option (List Nat) :=
  if s = MenuState.Opened then some slotContent else none

/-- The boolean test `menuState === MenuState.Opened` used by the render
gate. -/
def isOpened : MenuState → Bool
  | MenuState.Opened => true
  | MenuState.Closed => false

/-- Which element holds input focus in the widget-level model. -/
inductive FocusedElem
  | triggerButton
  | panelRoot
  | item (i : Nat)
  | outside
deriving DecidableEq, Repr

/-- Widget-level state: the Container's MenuState, whether the MenuItems
`ul` is currently in the DOM (so its template ref is set), and which
element holds input focus. -/
structure WidgetState where
  menuState : MenuState
  panelMounted : Bool
  focused : FocusedElem
deriving DecidableEq, Repr

/-- A render pass: MenuItems is in the tree exactly when the state is
`Opened`; when it leaves the tree its template ref is cleared. -/
def renderPass (s : WidgetState) : WidgetState :=
  { s with panelMounted := isOpened s.menuState }

/-- MenuItems' Escape branch followed by its deferred step: `closeMenu()`
synchronously, then after the next render pass (`nextTick`) the callback
runs `menuItemsRef.value?.focus()`; the ref is populated only while the
`ul` is mounted, so the optional call focuses the panel root only when the
panel survived the render. -/
def menuItemsEscapeStep (s : WidgetState) : WidgetState :=
  let s1 := { s with menuState := closeMenu s.menuState }
  let s2 := renderPass s1
  if s2.panelMounted then { s2 with focused := FocusedElem.panelRoot } else s2

/-- MenuItem activation (its `handleClick`, and the Enter/Space branch of
its `handleKeyDown`): `closeMenu()` synchronously, then after the next
render pass `menuButtonRef.value?.focus()`; the Trigger button is rendered
unconditionally, so its ref is always populated and focus lands on it. -/
def menuItemActivateStep (s : WidgetState) : WidgetState :=
  let s1 := { s with menuState := closeMenu s.menuState }
  let s2 := renderPass s1
  { s2 with focused := FocusedElem.triggerButton }

/-- The ways a MenuItem can be activated or keyed. -/
inductive ItemEvent
  | pointer
  | key (k : Key)
deriving DecidableEq, Repr

/-- Dispatch of MenuItem's handlers: pointer click always activates;
`handleKeyDown` activates on Enter and Space and ignores every other key. -/
def menuItemHandle : ItemEvent → WidgetState → WidgetState
  | ItemEvent.pointer, s => menuItemActivateStep s
  | ItemEvent.key Key.Enter, s => menuItemActivateStep s
  | ItemEvent.key Key.Space, s => menuItemActivateStep s
  | ItemEvent.key _, s => s

/-- Observable outcome of MenuButton's `handleKeyDown`: whether the event
default was suppressed and propagation stopped, the MenuState after the
synchronous part, and the focus request scheduled (via `nextTick`) to run
after the next render pass. -/
structure KeydownOutcome where
  defaultPrevented : Bool
  propagationStopped : Bool
  menuState : MenuState
  deferredFocus : Option FocusArg
deriving DecidableEq, Repr

/-- MenuButton's `handleKeyDown`: Space, Enter, ArrowDown and ArrowUp each
call `preventDefault`, `stopPropagation`, `openMenu()`, and schedule
`focus(Focus.First)` in `nextTick`; every other key does nothing. -/
def menuButtonKeydown (s : MenuState) : Key → KeydownOutcome
  | Key.Space =>
      { defaultPrevented := true, propagationStopped := true,
        menuState := openMenu s, deferredFocus := some (FocusArg.target Focus.First) }
  | Key.Enter =>
      { defaultPrevented := true, propagationStopped := true,
        menuState := openMenu s, deferredFocus := some (FocusArg.target Focus.First) }
  | Key.ArrowDown =>
      { defaultPrevented := true, propagationStopped := true,
        menuState := openMenu s, deferredFocus := some (FocusArg.target Focus.First) }
  | Key.ArrowUp =>
      { defaultPrevented := true, propagationStopped := true,
        menuState := openMenu s, deferredFocus := some (FocusArg.target Focus.First) }
  | _ => { defaultPrevented := false, propagationStopped := false,
           menuState := s, deferredFocus := none }

/-- A stand-in for the `Api` record provided through the MenuContext; only
its existence matters to `useMenuContext`. -/
structure Api where
  menuState : MenuState
deriving DecidableEq, Repr

/-- `useMenuContext`: `inject(MenuContext)` yields the provided context or
`undefined`; when absent the hook throws
`` `<${component}> is missing a parent <Menu /> component.` `` at setup
(mount) time, before the component's render function is produced. -/
def useMenuContext (component : String) (ctx : Option Api) : Except String Api :=
  match ctx with
  | none => Except.error ("<" ++ component ++ "> is missing a parent <Menu /> component.")
  | some c => Except.ok c

/-- The Textarea effect body: `if (props.value)
setCharacterCount(props.value.toString().length)`. The value prop is
modelled as an optional string; `undefined` and the empty string are falsy,
so the stored count is returned unchanged for them. -/
def textareaCountEffect : Option String → Nat → Nat
  | some v, count => if v.isEmpty then count else v.length
  | none, count => count

/-- An album as read by TrackCard (`image` is the only field it touches). -/
structure Album where
  image : String
deriving DecidableEq, Repr

/-- A track as read by TrackCard. -/
structure Track where
  id : Nat
  name : String
  albums : List Album
deriving DecidableEq, Repr

/-- TrackCard's unguarded read `track.albums[0].image`: JS indexing past
the end yields `undefined`, and the subsequent `.image` access on
`undefined` throws a TypeError. -/
def trackCardImageSrc (t : Track) : Except String String :=
  match t.albums.get? 0 with
  | none => Except.error "TypeError: cannot read image of undefined"
  | some album => Except.ok album.image

/-- A DOM where no element holds input focus
(`activeElement.value` is `undefined`). -/
def domNoActive : Dom :=
  { menuItemsChildren := some [10, 11], active := none,
    parentOf := fun _ => none, childrenOf := fun _ => [] }

/-- A DOM where the focused element exists but has no parent element. -/
def domNoParent : Dom :=
  { menuItemsChildren := some [10, 11], active := some 10,
    parentOf := fun _ => none, childrenOf := fun _ => [] }

/-- C1: the spec claims `focus` never raises for any target and state, in
particular that `focus(Previous)` and `focus(Next)` do not raise when no
element holds input focus or the focused element has no parent. The code
contradicts this: `[...activeElement.value?.parentElement?.children]`
spreads `undefined` in exactly those situations and throws a TypeError. -/
theorem focus_previous_next_raise_without_focus :
    focusFn domNoActive (FocusArg.target Focus.Previous)
      = Except.error spreadUndefinedError
  ∧ focusFn domNoActive (FocusArg.target Focus.Next)
      = Except.error spreadUndefinedError
  ∧ focusFn domNoParent (FocusArg.target Focus.Previous)
      = Except.error spreadUndefinedError
  ∧ focusFn domNoParent (FocusArg.target Focus.Next)
      = Except.error spreadUndefinedError :=
  ⟨rfl, rfl, rfl, rfl⟩

/-- C2: the Panel's item list is present in the rendered output iff the
MenuState is `Opened`; when `Closed` the render function produces nothing
(the panel is absent from the tree), and when `Opened` it produces the
item list. -/
theorem menuItems_present_iff_open (s : MenuState) (slotContent : List Nat) :
    ((menuItemsRender s slotContent).isSome ↔ s = MenuState.Opened)
  ∧ menuItemsRender MenuState.Closed slotContent = none
  ∧ menuItemsRender MenuState.Opened slotContent = some slotContent := by
  cases s <;> simp [menuItemsRender]

/-- Helper for C3: the state after `n` Trigger clicks, starting from
`Closed`, is determined by the parity of `n`. -/
theorem stateAfterClicks_mod (n : Nat) :
    stateAfterClicks n
      = (if n % 2 = 0 then MenuState.Closed else MenuState.Opened) := by
  induction n with
  | zero => rfl
  | succ m ih =>
    by_cases h : m % 2 = 0
    · have h2 : (m + 1) % 2 = 1 := by omega
      simp [stateAfterClicks, ih, h, h2, handleClick, closeMenu, openMenu]
    · have h2 : (m + 1) % 2 = 0 := by omega
      simp [stateAfterClicks, ih, h, h2, handleClick, closeMenu, openMenu]

/-- C3: starting from the initial state `Closed`, each Trigger pointer
activation maps `Opened` to `Closed` and `Closed` to `Opened`, and the
resulting trace strictly alternates Closed, Opened, Closed, ... with no
terminal state (the state after every number of clicks is defined and
differs from its predecessor). -/
theorem trigger_clicks_alternate (n : Nat) :
    handleClick MenuState.Opened = MenuState.Closed
  ∧ handleClick MenuState.Closed = MenuState.Opened
  ∧ stateAfterClicks n
      = (if n % 2 = 0 then MenuState.Closed else MenuState.Opened)
  ∧ stateAfterClicks (n + 1) ≠ stateAfterClicks n := by
  refine ⟨by decide, by decide, stateAfterClicks_mod n, ?_⟩
  rw [stateAfterClicks_mod n, stateAfterClicks_mod (n + 1)]
  by_cases h : n % 2 = 0
  · have h2 : (n + 1) % 2 = 1 := by omega
    simp [h, h2]
  · have h2 : (n + 1) % 2 = 0 := by omega
    simp [h, h2]

/-- C3 witness: the first click flips the state, concretely. -/
theorem trigger_clicks_alternate_witness :
    stateAfterClicks 1 ≠ stateAfterClicks 0
  ∧ stateAfterClicks 0 = MenuState.Closed :=
  ⟨(trigger_clicks_alternate 0).2.2.2,
   by simpa using (trigger_clicks_alternate 0).2.2.1⟩

/-- Helper: JS element indexing returns `undefined` for any negative or
past-the-end index. -/
theorem jsChildAt_out_of_range (cs : List Nat) (i : Int)
    (h : i < 0 ∨ (cs.length : Int) ≤ i) : jsChildAt cs i = none := by
  unfold jsChildAt
  rcases h with h | h
  · rw [if_neg (by omega)]
  · rw [if_pos (by omega)]
    exact List.get?_eq_none.mpr (by omega)

/-- C4: every index outside the Panel's item range resolves to "no item
found" and is a silent no-op: an explicit out-of-range index, `First` on a
panel with zero items, the `-1` produced by `Previous` when the focused
item is at index 0, and the past-the-end index produced by `Next` at the
last item all return no focused element, with no wraparound and no error. -/
theorem focus_out_of_range_is_silent_noop (d : Dom) :
    (∀ cs i, d.menuItemsChildren = some cs →
        (i < 0 ∨ (cs.length : Int) ≤ i) →
        focusFn d (FocusArg.index i) = Except.ok none)
  ∧ (d.menuItemsChildren = some [] →
        focusFn d (FocusArg.target Focus.First) = Except.ok none)
  ∧ (∀ a p, d.active = some a → d.parentOf a = some p →
        jsIndexOf (d.childrenOf p) a = 0 →
        focusFn d (FocusArg.target Focus.Previous) = Except.ok none)
  ∧ (∀ a p cs, d.active = some a → d.parentOf a = some p →
        d.menuItemsChildren = some cs → d.childrenOf p = cs →
        jsIndexOf cs a = (cs.length : Int) - 1 →
        focusFn d (FocusArg.target Focus.Next) = Except.ok none) := by
  refine ⟨?_, ?_, ?_, ?_⟩
  · intro cs i hcs hrange
    simp [focusFn, focusIdx, hcs, jsChildAt_out_of_range cs i hrange]
  · intro hcs
    simp [focusFn, focusIdx, hcs, jsChildAt]
  · intro a p ha hp hidx
    have h1 : focusFn d (FocusArg.target Focus.Previous)
        = Except.ok (focusIdx d (jsIndexOf (d.childrenOf p) a - 1)) := by
      simp [focusFn, ha, hp]
    rw [h1, hidx]
    cases hm : d.menuItemsChildren with
    | none => simp [focusIdx, hm]
    | some cs =>
        simp only [focusIdx, hm, Except.ok.injEq]
        exact jsChildAt_out_of_range cs (0 - 1) (Or.inl (by omega))
  · intro a p cs ha hp hcs hch hidx
    have h1 : focusFn d (FocusArg.target Focus.Next)
        = Except.ok (focusIdx d (jsIndexOf (d.childrenOf p) a + 1)) := by
      simp [focusFn, ha, hp]
    rw [h1, hch, hidx]
    simp only [focusIdx, hcs, Except.ok.injEq]
    exact jsChildAt_out_of_range cs ((cs.length : Int) - 1 + 1) (Or.inr (by omega))

/-- A DOM with two menu items whose focused element is the first item. -/
def domSmall : Dom :=
  { menuItemsChildren := some [10, 11], active := some 10,
    parentOf := fun _ => some 99,
    childrenOf := fun p => if p = 99 then [10, 11] else [] }

/-- A DOM with two menu items whose focused element is the last item. -/
def domLast : Dom :=
  { menuItemsChildren := some [10, 11], active := some 11,
    parentOf := fun _ => some 99,
    childrenOf := fun p => if p = 99 then [10, 11] else [] }

/-- A DOM whose panel is mounted with zero items. -/
def domEmptyItems : Dom :=
  { menuItemsChildren := some [], active := none,
    parentOf := fun _ => none, childrenOf := fun _ => [] }

/-- C4 witness: the four no-op situations at concrete DOMs. -/
theorem focus_out_of_range_noop_witness :
    focusFn domSmall (FocusArg.index 5) = Except.ok none
  ∧ focusFn domEmptyItems (FocusArg.target Focus.First) = Except.ok none
  ∧ focusFn domSmall (FocusArg.target Focus.Previous) = Except.ok none
  ∧ focusFn domLast (FocusArg.target Focus.Next) = Except.ok none :=
  ⟨(focus_out_of_range_is_silent_noop domSmall).1 [10, 11] 5 rfl
      (Or.inr (by decide)),
   (focus_out_of_range_is_silent_noop domEmptyItems).2.1 rfl,
   (focus_out_of_range_is_silent_noop domSmall).2.2.1 10 99 rfl rfl (by decide),
   (focus_out_of_range_is_silent_noop domLast).2.2.2 11 99 [10, 11]
      rfl rfl rfl rfl (by decide)⟩

/-- A concrete open widget with the first item focused, as left by the
end-to-end scenario right before Escape is pressed. -/
def escapeStartState : WidgetState :=
  { menuState := MenuState.Opened, panelMounted := true,
    focused := FocusedElem.item 0 }

/-- C5 counterexample: at a concrete open state with an item focused,
after Escape and the deferred step the state is Closed but the Panel root
does NOT hold focus — the Closed render unmounts the panel, so the
deferred `menuItemsRef.value?.focus()` finds an empty ref and is a no-op.
This refutes the claim that the Panel root holds focus afterwards. -/
theorem escape_does_not_focus_panel_root :
    ¬ ((menuItemsEscapeStep escapeStartState).menuState = MenuState.Closed
       ∧ (menuItemsEscapeStep escapeStartState).focused = FocusedElem.panelRoot) := by
  decide

/-- C5 (amended): Escape on the mounted Panel closes the menu; the
deferred step targets the Panel's own root, but since the Closed render
removes the Panel from the tree the ref is empty and the deferred call
does nothing: after the deferred step the state is Closed, the panel is
unmounted, and input focus is unchanged. -/
theorem escape_closes_and_deferred_focus_is_noop (s : WidgetState) :
    (menuItemsEscapeStep s).menuState = MenuState.Closed
  ∧ (menuItemsEscapeStep s).panelMounted = false
  ∧ (menuItemsEscapeStep s).focused = s.focused := by
  simp [menuItemsEscapeStep, renderPass, closeMenu, isOpened]

/-- C6: activating a Menu Item, whether by pointer or by Enter or Space,
sets the MenuState to Closed regardless of the prior state (a no-op when
already Closed), and after the next render pass input focus is on the
Trigger button. -/
theorem menuItem_activation_closes_and_refocuses_trigger (s : WidgetState) :
    ((menuItemHandle ItemEvent.pointer s).menuState = MenuState.Closed
     ∧ (menuItemHandle ItemEvent.pointer s).focused = FocusedElem.triggerButton)
  ∧ ((menuItemHandle (ItemEvent.key Key.Enter) s).menuState = MenuState.Closed
     ∧ (menuItemHandle (ItemEvent.key Key.Enter) s).focused
         = FocusedElem.triggerButton)
  ∧ ((menuItemHandle (ItemEvent.key Key.Space) s).menuState = MenuState.Closed
     ∧ (menuItemHandle (ItemEvent.key Key.Space) s).focused
         = FocusedElem.triggerButton) := by
  simp [menuItemHandle, menuItemActivateStep, renderPass, closeMenu, isOpened]

/-- C7: the missing-parent mount error behaves as claimed — mounting a
descendant without a Container throws immediately with a message naming
the misplaced component, and with a context present the hook returns it —
but it is NOT the only fatal operation: `focus(Previous)`/`focus(Next)`
also throw a TypeError when no element holds focus or the focused element
has no parent, contradicting the "no other operation is fatal" part. -/
theorem useMenuContext_error_message_and_focus_fatal :
    (∀ c, useMenuContext c none
        = Except.error ("<" ++ c ++ "> is missing a parent <Menu /> component."))
  ∧ useMenuContext "MenuItems" (some { menuState := MenuState.Closed })
      = Except.ok { menuState := MenuState.Closed }
  ∧ focusFn domNoParent (FocusArg.target Focus.Next)
      = Except.error spreadUndefinedError :=
  ⟨fun _ => rfl, rfl, rfl⟩

/-- C8: each of Space, Enter, ArrowDown and ArrowUp on the Trigger while
the menu is Closed suppresses the default activation, stops propagation,
makes the state `Opened`, and schedules a `focus(Focus.First)` request to
run after the next render pass (the synchronous outcome carries it as a
deferred request, not an already-performed focus). -/
theorem menuButton_keydown_opens_and_schedules_first :
    menuButtonKeydown MenuState.Closed Key.Space
      = { defaultPrevented := true, propagationStopped := true,
          menuState := MenuState.Opened,
          deferredFocus := some (FocusArg.target Focus.First) }
  ∧ menuButtonKeydown MenuState.Closed Key.Enter
      = { defaultPrevented := true, propagationStopped := true,
          menuState := MenuState.Opened,
          deferredFocus := some (FocusArg.target Focus.First) }
  ∧ menuButtonKeydown MenuState.Closed Key.ArrowDown
      = { defaultPrevented := true, propagationStopped := true,
          menuState := MenuState.Opened,
          deferredFocus := some (FocusArg.target Focus.First) }
  ∧ menuButtonKeydown MenuState.Closed Key.ArrowUp
      = { defaultPrevented := true, propagationStopped := true,
          menuState := MenuState.Opened,
          deferredFocus := some (FocusArg.target Focus.First) } :=
  ⟨rfl, rfl, rfl, rfl⟩

/-- C9: the Textarea count effect updates only for a truthy value: when
the value prop changes to the empty string or is absent, the stored
characterCount is returned unchanged — so a count of 5 persists after the
value is cleared to "" (stale display) — while a non-empty value updates
the count to its length. -/
theorem textarea_effect_skips_falsy_values (count : Nat) :
    textareaCountEffect (some "") count = count
  ∧ textareaCountEffect none count = count
  ∧ textareaCountEffect (some "") 5 = 5
  ∧ textareaCountEffect (some "ab") count = 2 :=
  ⟨rfl, rfl, rfl, rfl⟩

/-- C10: TrackCard's unguarded `track.albums[0].image` read is
well-defined exactly when the track has at least one album: with a
non-empty albums list it yields the first album's image, and with zero
albums the index-0 access yields no element and the `.image` access
fails. -/
theorem trackCard_requires_nonempty_albums (t : Track) :
    ((∃ s, trackCardImageSrc t = Except.ok s) ↔ t.albums ≠ [])
  ∧ (∀ a rest, t.albums = a :: rest → trackCardImageSrc t = Except.ok a.image)
  ∧ (t.albums = [] →
      trackCardImageSrc t
        = Except.error "TypeError: cannot read image of undefined") := by
  refine ⟨?_, ?_, ?_⟩
  · cases h : t.albums with
    | nil => simp [trackCardImageSrc, h]
    | cons a rest => simp [trackCardImageSrc, h]
  · intro a rest h
    simp [trackCardImageSrc, h]
  · intro h
    simp [trackCardImageSrc, h]

/-- The single-album data used by the C10 witness. -/
def albumCover : Album :=
  { image := "cover" }

def trackWithAlbum : Track :=
  { id := 1, name := "song", albums := [albumCover] }

def trackNoAlbums : Track :=
  { id := 2, name := "empty", albums := [] }

/-- C10 witness: a track with one album renders its cover; a track with
zero albums makes the read fail. -/
theorem trackCard_requires_nonempty_albums_witness :
    trackCardImageSrc trackWithAlbum = Except.ok "cover"
  ∧ trackCardImageSrc trackNoAlbums
      = Except.error "TypeError: cannot read image of undefined" :=
  ⟨(trackCard_requires_nonempty_albums trackWithAlbum).2.1 albumCover [] rfl,
   (trackCard_requires_nonempty_albums trackNoAlbums).2.2 rfl⟩
